import Mathlib

/-!
Shallow embedding of the alumet plugin runtime
(src/alumet/src/plugin/dyn_load.rs and the FFI types of
src/alumet/src/ffi/mod.rs), together with theorems settling the
spec claims about it.

Conventions of the embedding:
* `toml::Value` / `toml::Table` become an inductive `TomlValue` and an
  association list `Table`; the key set of a real `toml::Table` is
  duplicate-free, which appears here as a `Nodup` hypothesis where needed.
* `&mut` state becomes explicit state passing: `plugin_subconfig` returns
  the result together with the updated global table.
* Raw pointers (`*mut c_void`) become `Pointer := Nat`, with `0` playing
  the role of the null pointer.
* Fallible code returns `Except`; the `todo!` reached by `load_cdylib`
  on a version mismatch is a Rust panic, so the result type of the load
  is `LoadResult`, which has a distinct `panicked` alternative.
-/

namespace Alumet

/-- The `toml::Value` type of the `toml` crate, as consumed by
`plugin_subconfig`. Payloads irrelevant to the claims (float, datetime
contents) are dropped; only the shape and `type_str` matter here. -/
inductive TomlValue where
  | string (s : String)
  | integer (n : Int)
  | float
  | boolean (b : Bool)
  | datetime
  | array (xs : List TomlValue)
  | table (t : List (String × TomlValue))

/-- Embeds `toml::Table`: a key-value table with string keys. -/
abbrev Table := List (String × TomlValue)

/-- Embeds `toml::Value::type_str`, the kind name reported in error messages. -/
def TomlValue.type_str : TomlValue → String
  | .string _ => "string"
  | .integer _ => "integer"
  | .float => "float"
  | .boolean _ => "boolean"
  | .datetime => "datetime"
  | .array _ => "array"
  | .table _ => "table"

/-- Whether a `TomlValue` is a nested table. -/
def TomlValue.isTable : TomlValue → Bool
  | .table _ => true
  | _ => false

/-- Embeds `toml::map::Map::remove`: removes the entry under the key, returning
the removed value (if any) together with the remaining table. -/
def tableRemove : Table → String → Option TomlValue × Table
  | [], _ => (none, [])
  | (k, v) :: rest, name =>
    if k = name then (some v, rest)
    else
      let r := tableRemove rest name
      (r.1, (k, v) :: r.2)

/-- Embeds `toml::map::Map::get`: first value stored under the key. -/
def tableGet : Table → String → Option TomlValue
  | [], _ => none
  | (k, v) :: rest, name => if k = name then some v else tableGet rest name

/-- The two failure conditions of `plugin_subconfig`
(src/alumet/src/plugin/dyn_load.rs lines 164-168), carrying exactly the
data interpolated into the `anyhow!` message: the plugin name, and for a
shape error also the actual value kind (`type_str`) that was found. -/
inductive SubconfigError where
  | typeMismatch (pluginName : String) (actualKind : String)
  | missing (pluginName : String)
deriving DecidableEq

/-- Embeds `plugin_subconfig` (src/alumet/src/plugin/dyn_load.rs lines 159-170).
The plugin is identified by its name; the `&mut toml::Table` argument
becomes the second component of the result, which holds the global table
after the `remove` in every branch. -/
def plugin_subconfig (pluginName : String) (global_config : Table) :
    Except SubconfigError Table × Table :=
  let r := tableRemove global_config pluginName
  match r.1 with
  | some (TomlValue.table t) => (Except.ok t, r.2)
  | some bad_value => (Except.error (SubconfigError.typeMismatch pluginName bad_value.type_str), r.2)
  | none => (Except.error (SubconfigError.missing pluginName), r.2)

/-- Modelled from the spec: the version module
(`crate::plugin::version`, used by dyn_load.rs at lines 111-112 and 192-196)
is not among the provided source files. §4.1 defines a `Version` as a
three-component dotted numeric identifier `{major, minor, patch}`, all
non-negative integers, immutable once constructed. -/
structure Version where
  major : Nat
  minor : Nat
  patch : Nat
deriving DecidableEq

/-- Modelled from the spec: the parse error of the missing version module.
§4.1: parsing "fails with a parse error if any component is missing,
non-numeric, or extra components are present". -/
inductive VersionError where
  | parse (input : String)
deriving DecidableEq

/-- Splits a character list on the dot separator; like
`String.splitOn "."`, the empty input yields one empty component. -/
def splitOnDot (cs : List Char) (cur : List Char) : List (List Char) :=
  match cs with
  | [] => [cur.reverse]
  | c :: rest =>
    if c = '.' then cur.reverse :: splitOnDot rest []
    else splitOnDot rest (c :: cur)

/-- Reads a run of decimal digits as a number; any non-digit fails. -/
def parseDigitsAux : List Char → Nat → Option Nat
  | [], acc => some acc
  | c :: rest, acc =>
    if c.isDigit then parseDigitsAux rest (acc * 10 + (c.toNat - 48))
    else none

/-- A dotted-version component: nonempty and all digits, else `none`. -/
def parseComponent : List Char → Option Nat
  | [] => none
  | cs => parseDigitsAux cs 0

/-- Modelled from the spec: §4.1 — parses a string of the form
`"MAJOR.MINOR.PATCH"` into a `Version`; fails if any component is missing,
non-numeric, or extra components are present (§8: `"1.2.3"` parses,
`"1.2"`, `"1.2.x"`, `""`, `"1.2.3.4"` fail). -/
def Version.parse (s : String) : Except VersionError Version :=
  match (splitOnDot s.data []).map parseComponent with
  | [some a, some b, some c] => Except.ok ⟨a, b, c⟩
  | _ => Except.error (VersionError.parse s)

/-- Modelled from the spec: §4.1 — `can_load(host, required)` is true iff
`host.major == required.major` and `(host.minor, host.patch)` is at least
`(required.minor, required.patch)` in lexicographic order. -/
def Version.can_load (host required : Version) : Bool :=
  host.major == required.major &&
    (decide (required.minor < host.minor) ||
      (host.minor == required.minor && decide (required.patch ≤ host.patch)))

/-! ### FFI types (src/alumet/src/ffi/mod.rs) -/

/-- The opaque FFI-safe configuration handle (`crate::config::ConfigTable`)
passed to `plugin_init`; its contents are irrelevant to the claims. -/
structure ConfigTable where
  val : Unit

/-- The opaque `AlumetStart` handle passed to `plugin_start`. -/
structure AlumetStart where
  val : Unit

/-- Embeds `*mut c_void`: a raw address; `0` is the null pointer. -/
abbrev Pointer := Nat

/-- Embeds `dyn_ffi::InitFn = extern fn(*const ConfigTable) -> *mut c_void`:
returns the opaque plugin instance pointer, null (`0`) on failure. -/
abbrev InitFn := ConfigTable → Pointer

/-- Embeds `dyn_ffi::StartFn = extern fn(*mut c_void, *mut AlumetStart)`:
no return value. -/
abbrev StartFn := Pointer → AlumetStart → Unit

/-- Embeds `dyn_ffi::StopFn = extern fn(*mut c_void)`: no return value. -/
abbrev StopFn := Pointer → Unit

/-- Embeds `dyn_ffi::DropFn = unsafe extern fn(*mut c_void)`: no return value. -/
abbrev DropFn := Pointer → Unit

/-! ### The dynamic loader (src/alumet/src/plugin/dyn_load.rs) -/

/-- A `libloading::Error` (dlopen/dlsym failure), carried as its message. -/
structure LibloadingError where
  message : String
deriving DecidableEq

/-- A null-terminated C string exported by a library, as seen after
`CStr::from_ptr(...).to_str()`: either the decoded UTF-8 contents, or a
`Utf8Error` (carried as its message). -/
abbrev CStrText := Except String String

/-- A shared library, modelled by what `libloading::Library::get` yields
for each of the seven required symbols (dyn_load.rs lines 87-93): either
the resolved value or the `libloading::Error` of the failed lookup. -/
structure SharedLibrary where
  sym_name : Except LibloadingError CStrText
  sym_plugin_version : Except LibloadingError CStrText
  sym_alumet_version : Except LibloadingError CStrText
  sym_init : Except LibloadingError InitFn
  sym_start : Except LibloadingError StartFn
  sym_stop : Except LibloadingError StopFn
  sym_drop : Except LibloadingError DropFn

/-- The boxed `dyn Error` source stored in `LoadError::InvalidSymbol`:
in dyn_load.rs it is either a `str::Utf8Error` (from `sym_to_string`,
line 101) or a `version::Error` (from the `From` impl, lines 192-196). -/
inductive SymbolErrorSource where
  | utf8 (err : String)
  | version (err : VersionError)
deriving DecidableEq

/-- Embeds `LoadError` (dyn_load.rs lines 63-71): `LibraryLoad` wraps a
`libloading::Error`, `InvalidSymbol` carries the symbol name and the boxed
source error, `PluginInit` means `plugin_init` returned null. -/
inductive LoadError where
  | libraryLoad (err : LibloadingError)
  | invalidSymbol (name : String) (source : SymbolErrorSource)
  | pluginInit
deriving DecidableEq

/-- Embeds `impl From<libloading::Error> for LoadError` (dyn_load.rs lines
187-191): every `libloading` failure, including a failed `lib.get` of a
single symbol, becomes `LoadError::LibraryLoad`. -/
def LoadError.fromLibloading (err : LibloadingError) : LoadError :=
  LoadError.libraryLoad err

/-- Embeds `impl From<version::Error> for LoadError` (dyn_load.rs lines 192-196):
a version parse failure becomes `LoadError::InvalidSymbol` for the symbol
`"ALUMET_VERSION"`, with the version error boxed as the source. -/
def LoadError.fromVersionError (err : VersionError) : LoadError :=
  LoadError.invalidSymbol "ALUMET_VERSION" (SymbolErrorSource.version err)

/-- Classifier: is a `LoadError` of the symbol class (`InvalidSymbol`)? -/
def LoadError.isSymbolError : LoadError → Bool
  | .invalidSymbol _ _ => true
  | _ => false

/-- Embeds `DylibPlugin` (dyn_load.rs lines 20-29): the owning wrapper around a
dynamically loaded plugin. Field order follows the Rust declaration order,
which fixes the drop order of the fields; `instance` is renamed
`instancePtr` because `instance` is reserved in Lean. -/
structure DylibPlugin where
  name : String
  version : String
  start_fn : StartFn
  stop_fn : StopFn
  drop_fn : DropFn
  _library : SharedLibrary
  instancePtr : Pointer

/-- Embeds `PluginInfo` (the deferred descriptor returned by `load_cdylib`):
plugin name, plugin version, and the single-use `init` constructor taking
the configuration of the plugin. In the dynamic path the constructor always
produces a `DylibPlugin`, so the embedding types it concretely. -/
structure PluginInfo where
  name : String
  version : String
  init : ConfigTable → Except LoadError DylibPlugin

/-- Result of `load_cdylib`: besides `Ok`/`Err` of the Rust signature, a
`panicked` alternative records that the function aborted via a panic
(`todo!` produces the panic message `not yet implemented: ...`), which is
not a returnable `Result` value. -/
inductive LoadResult (α : Type) where
  | ok (value : α)
  | error (e : LoadError)
  | panicked (msg : String)

/-- Classifier: did the load fail (as a returned `Err`) with a
symbol-class error? -/
def LoadResult.failsWithSymbolError {α : Type} : LoadResult α → Bool
  | .error e => e.isSymbolError
  | _ => false

/-- Embeds `sym_to_string` (dyn_load.rs lines 98-103): decodes a C string
constant; a UTF-8 decoding failure is mapped to
`LoadError::InvalidSymbol(name, e)`. -/
def sym_to_string (sym : CStrText) (name : String) : Except LoadError String :=
  match sym with
  | .ok s => Except.ok s
  | .error e => Except.error (LoadError.invalidSymbol name (SymbolErrorSource.utf8 e))

/-- The `?` operator on a `lib.get(...)` result: a `libloading::Error` is
converted through `From<libloading::Error> for LoadError`. -/
def resolveSymbol {α : Type} (sym : Except LibloadingError α) : Except LoadError α :=
  match sym with
  | .ok v => Except.ok v
  | .error e => Except.error (LoadError.fromLibloading e)

/-- The init closure built by `load_cdylib` (dyn_load.rs lines 126-146):
calls the foreign `init_fn` with the config; a null result is
`Err(LoadError::PluginInit)`; a non-null result is wrapped, together with
the entry points and the still-open library handle, in a `DylibPlugin`. -/
def dylib_init_closure (lib : SharedLibrary) (name version : String)
    (init_fn : InitFn) (start_fn : StartFn) (stop_fn : StopFn) (drop_fn : DropFn)
    (config : ConfigTable) : Except LoadError DylibPlugin :=
  let external_plugin := init_fn config
  if external_plugin = 0 then
    Except.error LoadError.pluginInit
  else
    Except.ok ⟨name, version, start_fn, stop_fn, drop_fn, lib, external_plugin⟩

/-- Steps 2-4 of `load_cdylib` (dyn_load.rs lines 87-111), in source
order: resolve the seven symbols (each `?` maps a failure through
`From<libloading::Error>`, i.e. to `LibraryLoad`), decode the three text
constants (a failure is `InvalidSymbol` naming the constant), then parse
the required alumet version (a failure is `InvalidSymbol "ALUMET_VERSION"`
through `From<version::Error>`). -/
def load_cdylib_syms (lib : SharedLibrary) :
    Except LoadError (String × String × Version × InitFn × StartFn × StopFn × DropFn) :=
  match resolveSymbol lib.sym_name with
  | .error e => Except.error e
  | .ok sym_name =>
  match resolveSymbol lib.sym_plugin_version with
  | .error e => Except.error e
  | .ok sym_plugin_version =>
  match resolveSymbol lib.sym_alumet_version with
  | .error e => Except.error e
  | .ok sym_alumet_version =>
  match resolveSymbol lib.sym_init with
  | .error e => Except.error e
  | .ok init_fn =>
  match resolveSymbol lib.sym_start with
  | .error e => Except.error e
  | .ok start_fn =>
  match resolveSymbol lib.sym_stop with
  | .error e => Except.error e
  | .ok stop_fn =>
  match resolveSymbol lib.sym_drop with
  | .error e => Except.error e
  | .ok drop_fn =>
  match sym_to_string sym_name "PLUGIN_NAME" with
  | .error e => Except.error e
  | .ok name =>
  match sym_to_string sym_plugin_version "PLUGIN_VERSION" with
  | .error e => Except.error e
  | .ok version =>
  match sym_to_string sym_alumet_version "ALUMET_VERSION" with
  | .error e => Except.error e
  | .ok alumet_version =>
  match Version.parse alumet_version with
  | .error e => Except.error (LoadError.fromVersionError e)
  | .ok required_alumet_version =>
    Except.ok (name, version, required_alumet_version, init_fn, start_fn, stop_fn, drop_fn)

/-- Embeds `load_cdylib` (dyn_load.rs lines 78-150). The filesystem path becomes
the outcome of `Library::new`: either a `libloading::Error` or the opened
`SharedLibrary`. `Version::alumet()` lives in the missing version module,
so the host version is a parameter. On an incompatible required version
the source hits `todo!("invalid ALUMET version requirement")`, which
panics; otherwise the deferred `PluginInfo` descriptor is returned. -/
def load_cdylib (file : Except LibloadingError SharedLibrary) (hostVersion : Version) :
    LoadResult PluginInfo :=
  match file with
  | .error e => LoadResult.error (LoadError.fromLibloading e)
  | .ok lib =>
    match load_cdylib_syms lib with
    | .error e => LoadResult.error e
    | .ok (name, version, required_alumet_version, init_fn, start_fn, stop_fn, drop_fn) =>
      if hostVersion.can_load required_alumet_version then
        LoadResult.ok ⟨name, version,
          fun config => dylib_init_closure lib name version init_fn start_fn stop_fn drop_fn config⟩
      else
        LoadResult.panicked "not yet implemented: invalid ALUMET version requirement"

/-! ### Lifecycle calls on a `DylibPlugin` (dyn_load.rs lines 31-61) -/

/-- Embeds `DylibPlugin::start` (dyn_load.rs lines 40-43): calls the foreign
`start_fn` on the instance pointer — the FFI entry point has no return
value — and returns `Ok(())` unconditionally (`anyhow::Result<()>` is
modelled as `Except String Unit`). -/
def DylibPlugin.start (p : DylibPlugin) (alumet : AlumetStart) : Except String Unit :=
  let _ := p.start_fn p.instancePtr alumet
  Except.ok ()

/-- Embeds `DylibPlugin::stop` (dyn_load.rs lines 45-48): calls the foreign
`stop_fn` on the instance pointer and returns `Ok(())` unconditionally. -/
def DylibPlugin.stop (p : DylibPlugin) : Except String Unit :=
  let _ := p.stop_fn p.instancePtr
  Except.ok ()

/-- Observable teardown steps of a `DylibPlugin`. -/
inductive TeardownEvent where
  | callDropFn (instancePtr : Pointer)
  | unloadLibrary
deriving DecidableEq

/-- The Rust drop glue of `DylibPlugin`, as the sequence of teardown
events it emits: first the `Drop::drop` body (dyn_load.rs lines 51-61)
runs, calling `(self.drop_fn)(self.instance)`; then the fields are dropped
in declaration order — of the fields, only `_library: Library` has a
nontrivial destructor, which unloads the shared library (the strings
deallocate host memory only and the raw pointer has no destructor). -/
def DylibPlugin.dropGlue (p : DylibPlugin) : List TeardownEvent :=
  [TeardownEvent.callDropFn p.instancePtr] ++ [TeardownEvent.unloadLibrary]

/-! ### The plugin registry (dyn_load.rs lines 73-75 and 198-208) -/

/-- A registered plugin, abstracted to the observable part of the
`Box<dyn Plugin>` trait object the registry stores: its `name()` and
`version()`. -/
structure PluginHandle where
  name : String
  version : String
deriving DecidableEq

/-- Embeds `PluginRegistry` (dyn_load.rs lines 73-75): a `HashMap` from plugin
name to owned plugin, modelled as an association list with duplicate-free
keys. -/
abbrev PluginRegistry := List (String × PluginHandle)

/-- Embeds `HashMap::insert` semantics: if the key is present its value is
replaced, otherwise the entry is added. -/
def hashMapInsert : PluginRegistry → String → PluginHandle → PluginRegistry
  | [], k, v => [(k, v)]
  | (k0, v0) :: rest, k, v =>
    if k0 = k then (k, v) :: rest
    else (k0, v0) :: hashMapInsert rest k v

/-- Embeds `PluginRegistry::register` (dyn_load.rs lines 199-201):
`self.plugins.insert(plugin.name().into(), plugin)` — a plain `HashMap`
insert keyed by the name of the plugin; the function returns `()` and has no
error path. -/
def PluginRegistry.register (reg : PluginRegistry) (plugin : PluginHandle) : PluginRegistry :=
  hashMapInsert reg plugin.name plugin

/-- Embeds `PluginRegistry::get_mut` (dyn_load.rs lines 203-207): lookup by
name. -/
def PluginRegistry.get_mut (reg : PluginRegistry) (name : String) : Option PluginHandle :=
  match reg with
  | [] => none
  | (k, v) :: rest => if k = name then some v else PluginRegistry.get_mut rest name

/-! ### Helper lemmas about tables -/

theorem tableRemove_fst (g : Table) (k : String) :
    (tableRemove g k).1 = tableGet g k := by
  induction g with
  | nil => rfl
  | cons kv rest ih =>
    obtain ⟨k0, v0⟩ := kv
    by_cases h : k0 = k
    · simp [tableRemove, tableGet, h]
    · simp [tableRemove, tableGet, h, ih]

theorem tableGet_eq_none_of_not_mem (g : Table) (k : String)
    (h : k ∉ g.map Prod.fst) : tableGet g k = none := by
  induction g with
  | nil => rfl
  | cons kv rest ih =>
    obtain ⟨k0, v0⟩ := kv
    simp only [List.map_cons, List.mem_cons] at h
    push_neg at h
    simp only [tableGet]
    rw [if_neg (fun hh => h.1 hh.symm)]
    exact ih h.2

theorem tableGet_tableRemove_self (g : Table) (k : String)
    (h : (g.map Prod.fst).Nodup) : tableGet (tableRemove g k).2 k = none := by
  induction g with
  | nil => rfl
  | cons kv rest ih =>
    obtain ⟨k0, v0⟩ := kv
    simp only [List.map_cons, List.nodup_cons] at h
    by_cases hk : k0 = k
    · subst hk
      simp only [tableRemove, if_pos rfl]
      exact tableGet_eq_none_of_not_mem rest k0 h.1
    · simp only [tableRemove, if_neg hk]
      simp only [tableGet, if_neg hk]
      exact ih h.2

theorem plugin_subconfig_snd (name : String) (g : Table) :
    (plugin_subconfig name g).2 = (tableRemove g name).2 := by
  simp only [plugin_subconfig]
  rcases (tableRemove g name).1 with _ | v
  · rfl
  · cases v <;> rfl

theorem plugin_subconfig_of_get_none (name : String) (g : Table)
    (h : tableGet g name = none) :
    (plugin_subconfig name g).1 = Except.error (SubconfigError.missing name) := by
  rw [← tableRemove_fst] at h
  simp only [plugin_subconfig, h]

theorem plugin_subconfig_of_get_table (name : String) (g : Table)
    (t : List (String × TomlValue))
    (h : tableGet g name = some (TomlValue.table t)) :
    (plugin_subconfig name g).1 = Except.ok t := by
  rw [← tableRemove_fst] at h
  simp only [plugin_subconfig, h]

theorem plugin_subconfig_of_get_nontable (name : String) (g : Table) (v : TomlValue)
    (h : tableGet g name = some v) (hv : v.isTable = false) :
    (plugin_subconfig name g).1 =
      Except.error (SubconfigError.typeMismatch name v.type_str) := by
  rw [← tableRemove_fst] at h
  cases v <;> simp_all [plugin_subconfig, TomlValue.isTable]

/-! ### Helper lemmas about the registry -/

theorem get_mut_hashMapInsert_self (reg : PluginRegistry) (k : String) (v : PluginHandle) :
    PluginRegistry.get_mut (hashMapInsert reg k v) k = some v := by
  induction reg with
  | nil => simp [hashMapInsert, PluginRegistry.get_mut]
  | cons kv rest ih =>
    obtain ⟨k0, v0⟩ := kv
    by_cases h : k0 = k
    · simp [hashMapInsert, PluginRegistry.get_mut, h]
    · simp [hashMapInsert, PluginRegistry.get_mut, h, ih]

theorem get_mut_hashMapInsert_other (reg : PluginRegistry) (k n : String)
    (v : PluginHandle) (hn : n ≠ k) :
    PluginRegistry.get_mut (hashMapInsert reg k v) n = PluginRegistry.get_mut reg n := by
  induction reg with
  | nil =>
    simp only [hashMapInsert, PluginRegistry.get_mut]
    rw [if_neg (fun hh => hn hh.symm)]
  | cons kv rest ih =>
    obtain ⟨k0, v0⟩ := kv
    by_cases h : k0 = k
    · subst h
      simp only [hashMapInsert, if_pos rfl, PluginRegistry.get_mut]
      rw [if_neg (fun hh => hn hh.symm), if_neg (fun hh => hn hh.symm)]
    · simp only [hashMapInsert, if_neg h, PluginRegistry.get_mut]
      by_cases h0 : k0 = n
      · rw [if_pos h0, if_pos h0]
      · rw [if_neg h0, if_neg h0, ih]

theorem mem_keys_hashMapInsert (reg : PluginRegistry) (k n : String) (v : PluginHandle) :
    n ∈ (hashMapInsert reg k v).map Prod.fst ↔ n ∈ reg.map Prod.fst ∨ n = k := by
  induction reg with
  | nil => simp [hashMapInsert]
  | cons kv rest ih =>
    obtain ⟨k0, v0⟩ := kv
    by_cases h : k0 = k
    · subst h
      simp [hashMapInsert]
      tauto
    · simp [hashMapInsert, h, ih]
      tauto

theorem nodup_keys_hashMapInsert (reg : PluginRegistry) (k : String) (v : PluginHandle)
    (h : (reg.map Prod.fst).Nodup) :
    ((hashMapInsert reg k v).map Prod.fst).Nodup := by
  induction reg with
  | nil => simp [hashMapInsert]
  | cons kv rest ih =>
    obtain ⟨k0, v0⟩ := kv
    simp only [List.map_cons, List.nodup_cons] at h
    by_cases hk : k0 = k
    · subst hk
      have he : hashMapInsert ((k0, v0) :: rest) k0 v = (k0, v) :: rest := by
        simp [hashMapInsert]
      rw [he]
      simp only [List.map_cons, List.nodup_cons]
      exact ⟨h.1, h.2⟩
    · simp only [hashMapInsert, if_neg hk, List.map_cons, List.nodup_cons]
      refine ⟨?_, ih h.2⟩
      rw [mem_keys_hashMapInsert]
      push_neg
      exact ⟨h.1, hk⟩

/-! ### Concrete fixtures used by counterexamples and witnesses -/

/-- A trivial foreign start entry point. -/
def demoStartFn : StartFn := fun _ _ => ()

/-- A trivial foreign stop entry point. -/
def demoStopFn : StopFn := fun _ => ()

/-- A trivial foreign drop entry point. -/
def demoDropFn : DropFn := fun _ => ()

/-- A foreign init entry point that succeeds (non-null instance). -/
def demoInitOk : InitFn := fun _ => 1

/-- A foreign init entry point that fails (null instance). -/
def demoInitNull : InitFn := fun _ => 0

/-- A well-formed library whose required alumet version (99.0.0) is
incompatible with any 0.x host. -/
def libIncompatible : SharedLibrary :=
  ⟨Except.ok (Except.ok "demo"), Except.ok (Except.ok "0.1.0"),
   Except.ok (Except.ok "99.0.0"), Except.ok demoInitOk,
   Except.ok demoStartFn, Except.ok demoStopFn, Except.ok demoDropFn⟩

/-- A library in which exactly the required symbol plugin_init fails to
resolve; every other symbol is fine. -/
def libMissingInit : SharedLibrary :=
  ⟨Except.ok (Except.ok "demo"), Except.ok (Except.ok "0.1.0"),
   Except.ok (Except.ok "0.1.0"),
   Except.error ⟨"undefined symbol: plugin_init"⟩,
   Except.ok demoStartFn, Except.ok demoStopFn, Except.ok demoDropFn⟩

/-- A library in which exactly the required symbol plugin_drop fails to
resolve; every other symbol is fine. -/
def libMissingDrop : SharedLibrary :=
  ⟨Except.ok (Except.ok "demo"), Except.ok (Except.ok "0.1.0"),
   Except.ok (Except.ok "0.1.0"), Except.ok demoInitOk,
   Except.ok demoStartFn, Except.ok demoStopFn,
   Except.error ⟨"undefined symbol: plugin_drop"⟩⟩

/-- A library whose ALUMET_VERSION constant decodes fine but is not a
dotted three-component version: "1.2". -/
def libBadVersion : SharedLibrary :=
  ⟨Except.ok (Except.ok "demo"), Except.ok (Except.ok "0.1.0"),
   Except.ok (Except.ok "1.2"), Except.ok demoInitOk,
   Except.ok demoStartFn, Except.ok demoStopFn, Except.ok demoDropFn⟩

/-- A library whose ALUMET_VERSION constant decodes fine but has a
non-numeric component: "1.2.x". -/
def libBadVersion2 : SharedLibrary :=
  ⟨Except.ok (Except.ok "demo"), Except.ok (Except.ok "0.1.0"),
   Except.ok (Except.ok "1.2.x"), Except.ok demoInitOk,
   Except.ok demoStartFn, Except.ok demoStopFn, Except.ok demoDropFn⟩

/-- A fully well-formed library, compatible with a 0.1.x host. -/
def demoLib : SharedLibrary :=
  ⟨Except.ok (Except.ok "demo"), Except.ok (Except.ok "0.1.0"),
   Except.ok (Except.ok "0.1.0"), Except.ok demoInitOk,
   Except.ok demoStartFn, Except.ok demoStopFn, Except.ok demoDropFn⟩

/-- A global configuration document with a table section under "demo"
and an unrelated scalar entry. -/
def demoConfig : Table :=
  [("demo", TomlValue.table [("interval_ms", TomlValue.integer 100)]),
   ("other", TomlValue.integer 5)]

/-! ### Claim theorems -/

/-- Claim C1 (code_bug evidence): on a well-formed library whose required
host-API version (99.0.0) is incompatible with the host (0.1.0), the
source does not return a structured version-mismatch error: it reaches
the statement todo!("invalid ALUMET version requirement"), i.e. an
unhandled panic that is not a recoverable error result. -/
theorem c1_version_mismatch_panics :
    load_cdylib (Except.ok libIncompatible) ⟨0, 1, 0⟩ =
      LoadResult.panicked "not yet implemented: invalid ALUMET version requirement" := rfl

/-- Claim C2 (counterexample): registering a second plugin under the name
"a" does not fail and does not preserve the first registration — the
lookup afterwards yields the second plugin, which differs from the first.
PluginRegistry::register is a plain HashMap insert returning unit, so
there is no naming-conflict error at all. -/
theorem c2_register_overwrites :
    PluginRegistry.get_mut
        (PluginRegistry.register (PluginRegistry.register [] ⟨"a", "1"⟩) ⟨"a", "2"⟩) "a" =
      some ⟨"a", "2"⟩ ∧
    (⟨"a", "2"⟩ : PluginHandle) ≠ ⟨"a", "1"⟩ := by
  exact ⟨rfl, by decide⟩

/-- Claim C2 as amended: registering an instance whose name is already
present silently overwrites the existing entry (register has no error
path): afterwards the new instance is the one queryable under that name,
lookups under other names are unchanged, and the registry keys stay
duplicate-free. -/
theorem c2_register_last_wins (reg : PluginRegistry) (p : PluginHandle)
    (h : (reg.map Prod.fst).Nodup) :
    PluginRegistry.get_mut (PluginRegistry.register reg p) p.name = some p ∧
    (∀ n, n ≠ p.name →
      PluginRegistry.get_mut (PluginRegistry.register reg p) n =
        PluginRegistry.get_mut reg n) ∧
    ((PluginRegistry.register reg p).map Prod.fst).Nodup :=
  ⟨get_mut_hashMapInsert_self reg p.name p,
   fun n hn => get_mut_hashMapInsert_other reg p.name n p hn,
   nodup_keys_hashMapInsert reg p.name p h⟩

/-- Witness for the amended claim C2 at a concrete registry. -/
theorem c2_register_last_wins_witness :
    PluginRegistry.get_mut
        (PluginRegistry.register [("b", ⟨"b", "9"⟩)] ⟨"a", "1"⟩) "a" = some ⟨"a", "1"⟩ :=
  (c2_register_last_wins [("b", ⟨"b", "9"⟩)] ⟨"a", "1"⟩ (by simp)).1

/-- Claim C3 (counterexample): for a library in which exactly the
required symbol plugin_init is unresolved, the load fails with
LoadError::LibraryLoad (the library-load class, through
From<libloading::Error>), not with the symbol-error class
(LoadError::InvalidSymbol) naming the symbol. -/
theorem c3_missing_symbol_not_symbol_error :
    load_cdylib (Except.ok libMissingInit) ⟨0, 1, 0⟩ =
      LoadResult.error (LoadError.libraryLoad ⟨"undefined symbol: plugin_init"⟩) ∧
    (load_cdylib (Except.ok libMissingInit) ⟨0, 1, 0⟩).failsWithSymbolError = false :=
  ⟨rfl, rfl⟩

/-- Claim C3 as amended: for every shared library in which at least one
of the seven required symbols is unresolved, the whole load aborts with a
returned library-load error (LoadError::LibraryLoad wrapping the loader
error; not the InvalidSymbol class) and no descriptor is produced — in
particular the foreign init entry point, reachable only through the
descriptor, is never invoked. -/
theorem c3_missing_symbol_library_load_error (lib : SharedLibrary)
    (hostVersion : Version) (e : LibloadingError)
    (h : lib.sym_name = Except.error e ∨ lib.sym_plugin_version = Except.error e ∨
      lib.sym_alumet_version = Except.error e ∨ lib.sym_init = Except.error e ∨
      lib.sym_start = Except.error e ∨ lib.sym_stop = Except.error e ∨
      lib.sym_drop = Except.error e) :
    ∃ e2, load_cdylib (Except.ok lib) hostVersion =
        LoadResult.error (LoadError.libraryLoad e2) ∧
      (load_cdylib (Except.ok lib) hostVersion).failsWithSymbolError = false := by
  cases h1 : lib.sym_name with
  | error e1 =>
    have hres : load_cdylib (Except.ok lib) hostVersion =
        LoadResult.error (LoadError.libraryLoad e1) := by
      simp [load_cdylib, load_cdylib_syms, resolveSymbol, h1, LoadError.fromLibloading]
    exact ⟨e1, hres, by rw [hres]; rfl⟩
  | ok s1 =>
  cases h2 : lib.sym_plugin_version with
  | error e2 =>
    have hres : load_cdylib (Except.ok lib) hostVersion =
        LoadResult.error (LoadError.libraryLoad e2) := by
      simp [load_cdylib, load_cdylib_syms, resolveSymbol, h1, h2, LoadError.fromLibloading]
    exact ⟨e2, hres, by rw [hres]; rfl⟩
  | ok s2 =>
  cases h3 : lib.sym_alumet_version with
  | error e3 =>
    have hres : load_cdylib (Except.ok lib) hostVersion =
        LoadResult.error (LoadError.libraryLoad e3) := by
      simp [load_cdylib, load_cdylib_syms, resolveSymbol, h1, h2, h3, LoadError.fromLibloading]
    exact ⟨e3, hres, by rw [hres]; rfl⟩
  | ok s3 =>
  cases h4 : lib.sym_init with
  | error e4 =>
    have hres : load_cdylib (Except.ok lib) hostVersion =
        LoadResult.error (LoadError.libraryLoad e4) := by
      simp [load_cdylib, load_cdylib_syms, resolveSymbol, h1, h2, h3, h4,
        LoadError.fromLibloading]
    exact ⟨e4, hres, by rw [hres]; rfl⟩
  | ok f4 =>
  cases h5 : lib.sym_start with
  | error e5 =>
    have hres : load_cdylib (Except.ok lib) hostVersion =
        LoadResult.error (LoadError.libraryLoad e5) := by
      simp [load_cdylib, load_cdylib_syms, resolveSymbol, h1, h2, h3, h4, h5,
        LoadError.fromLibloading]
    exact ⟨e5, hres, by rw [hres]; rfl⟩
  | ok f5 =>
  cases h6 : lib.sym_stop with
  | error e6 =>
    have hres : load_cdylib (Except.ok lib) hostVersion =
        LoadResult.error (LoadError.libraryLoad e6) := by
      simp [load_cdylib, load_cdylib_syms, resolveSymbol, h1, h2, h3, h4, h5, h6,
        LoadError.fromLibloading]
    exact ⟨e6, hres, by rw [hres]; rfl⟩
  | ok f6 =>
  cases h7 : lib.sym_drop with
  | error e7 =>
    have hres : load_cdylib (Except.ok lib) hostVersion =
        LoadResult.error (LoadError.libraryLoad e7) := by
      simp [load_cdylib, load_cdylib_syms, resolveSymbol, h1, h2, h3, h4, h5, h6, h7,
        LoadError.fromLibloading]
    exact ⟨e7, hres, by rw [hres]; rfl⟩
  | ok f7 =>
    rcases h with h | h | h | h | h | h | h <;> simp_all

/-- Witness for the amended claim C3: the library missing plugin_drop. -/
theorem c3_missing_symbol_library_load_error_witness :
    ∃ e2, load_cdylib (Except.ok libMissingDrop) ⟨0, 1, 0⟩ =
        LoadResult.error (LoadError.libraryLoad e2) ∧
      (load_cdylib (Except.ok libMissingDrop) ⟨0, 1, 0⟩).failsWithSymbolError = false :=
  c3_missing_symbol_library_load_error libMissingDrop ⟨0, 1, 0⟩
    ⟨"undefined symbol: plugin_drop"⟩
    (Or.inr (Or.inr (Or.inr (Or.inr (Or.inr (Or.inr rfl))))))

/-- Claim C4: for every global configuration document (with the
duplicate-free keys of a real toml table) and plugin name: a successful
extraction removes the section, so a second extraction fails as missing;
extraction with no section under the name fails with a
missing-configuration error naming the plugin; extraction of a section
whose value is not a nested table fails with a type-mismatch error naming
the plugin and reporting the actual value kind found. -/
theorem c4_plugin_subconfig_spec (name : String) (g : Table)
    (h : (g.map Prod.fst).Nodup) :
    (∀ t, tableGet g name = some (TomlValue.table t) →
      (plugin_subconfig name g).1 = Except.ok t ∧
      (plugin_subconfig name (plugin_subconfig name g).2).1 =
        Except.error (SubconfigError.missing name)) ∧
    (tableGet g name = none →
      (plugin_subconfig name g).1 = Except.error (SubconfigError.missing name)) ∧
    (∀ v, tableGet g name = some v → v.isTable = false →
      (plugin_subconfig name g).1 =
        Except.error (SubconfigError.typeMismatch name v.type_str)) := by
  refine ⟨fun t ht => ⟨plugin_subconfig_of_get_table name g t ht, ?_⟩,
    plugin_subconfig_of_get_none name g,
    fun v hv hnv => plugin_subconfig_of_get_nontable name g v hv hnv⟩
  rw [plugin_subconfig_snd]
  exact plugin_subconfig_of_get_none name _ (tableGet_tableRemove_self g name h)

/-- Witness for claim C4: extracting "demo" from the demo document
succeeds and re-extracting "demo" fails as missing. -/
theorem c4_plugin_subconfig_spec_witness :
    (plugin_subconfig "demo" demoConfig).1 =
      Except.ok [("interval_ms", TomlValue.integer 100)] ∧
    (plugin_subconfig "demo" (plugin_subconfig "demo" demoConfig).2).1 =
      Except.error (SubconfigError.missing "demo") :=
  (c4_plugin_subconfig_spec "demo" demoConfig (by decide)).1
    [("interval_ms", TomlValue.integer 100)] rfl

/-- Claim C5: the descriptor constructor invokes the foreign init entry
point; it returns the plugin-init construction error exactly when init
returns the null pointer, and on a non-null result it returns the live
DylibPlugin wrapper bundling the opaque instance handle, the entry
points, and the still-open library handle. -/
theorem c5_init_closure_spec :
    ∀ (lib : SharedLibrary) (name version : String) (init_fn : InitFn)
      (start_fn : StartFn) (stop_fn : StopFn) (drop_fn : DropFn)
      (config : ConfigTable),
      (dylib_init_closure lib name version init_fn start_fn stop_fn drop_fn config =
          Except.error LoadError.pluginInit ↔ init_fn config = 0) ∧
      (init_fn config ≠ 0 →
        dylib_init_closure lib name version init_fn start_fn stop_fn drop_fn config =
          Except.ok ⟨name, version, start_fn, stop_fn, drop_fn, lib, init_fn config⟩) := by
  intro lib name version init_fn start_fn stop_fn drop_fn config
  constructor
  · constructor
    · intro h
      by_contra hne
      simp [dylib_init_closure, hne] at h
    · intro h0
      simp [dylib_init_closure, h0]
  · intro hne
    simp [dylib_init_closure, hne]

/-- Witness for claim C5: a non-null init yields the bundled wrapper, a
null init yields the plugin-init error. -/
theorem c5_init_closure_spec_witness :
    dylib_init_closure demoLib "demo" "0.1.0" demoInitOk demoStartFn demoStopFn
        demoDropFn ⟨()⟩ =
      Except.ok ⟨"demo", "0.1.0", demoStartFn, demoStopFn, demoDropFn, demoLib, 1⟩ ∧
    dylib_init_closure demoLib "demo" "0.1.0" demoInitNull demoStartFn demoStopFn
        demoDropFn ⟨()⟩ =
      Except.error LoadError.pluginInit :=
  ⟨(c5_init_closure_spec demoLib "demo" "0.1.0" demoInitOk demoStartFn demoStopFn
      demoDropFn ⟨()⟩).2 (by decide),
   ((c5_init_closure_spec demoLib "demo" "0.1.0" demoInitNull demoStartFn demoStopFn
      demoDropFn ⟨()⟩).1).mpr rfl⟩

/-- Claim C6 (spec-modelled, the version module is not among the provided
sources): can_load(host, required) is true iff the majors are equal and
(host.minor, host.patch) is at least (required.minor, required.patch) in
lexicographic order; together with the four concrete cases of §8. -/
theorem c6_can_load_spec :
    (∀ host required : Version,
      Version.can_load host required = true ↔
        (host.major = required.major ∧
          Prod.Lex (· < ·) (· ≤ ·) (required.minor, required.patch)
            (host.minor, host.patch))) ∧
    Version.can_load ⟨2, 0, 0⟩ ⟨2, 0, 0⟩ = true ∧
    Version.can_load ⟨2, 1, 0⟩ ⟨2, 0, 5⟩ = true ∧
    Version.can_load ⟨2, 0, 0⟩ ⟨2, 1, 0⟩ = false ∧
    Version.can_load ⟨3, 0, 0⟩ ⟨2, 9, 9⟩ = false := by
  refine ⟨fun host required => ?_, rfl, rfl, rfl, rfl⟩
  simp only [Version.can_load, Bool.and_eq_true, Bool.or_eq_true, decide_eq_true_eq,
    beq_iff_eq, Prod.lex_def]
  omega

/-- Claim C7: in the teardown of a DylibPlugin wrapper (run both when a
registry entry is removed and when the wrapper is dropped), the foreign
drop entry point is called on the opaque instance handle strictly before
the library handle is unloaded: each event occurs exactly once, and the
index of the drop call precedes the index of the unload. -/
theorem c7_drop_before_unload :
    ∀ p : DylibPlugin, ∃ i j : Nat, i < j ∧
      (DylibPlugin.dropGlue p).get? i = some (TeardownEvent.callDropFn p.instancePtr) ∧
      (DylibPlugin.dropGlue p).get? j = some TeardownEvent.unloadLibrary ∧
      (DylibPlugin.dropGlue p).count TeardownEvent.unloadLibrary = 1 ∧
      (DylibPlugin.dropGlue p).count (TeardownEvent.callDropFn p.instancePtr) = 1 := by
  intro p
  refine ⟨0, 1, by omega, rfl, rfl, ?_, ?_⟩
  · simp [DylibPlugin.dropGlue]
  · simp [DylibPlugin.dropGlue]

/-- Claim C8 (counterexample): when ALUMET_VERSION decodes to the
malformed version string "1.2", the load fails with
LoadError::InvalidSymbol — the symbol-error class — because
From<version::Error> maps version parse errors there; LoadError has no
distinct version-mismatch class. -/
theorem c8_malformed_version_is_symbol_error :
    load_cdylib (Except.ok libBadVersion) ⟨0, 1, 0⟩ =
      LoadResult.error (LoadError.invalidSymbol "ALUMET_VERSION"
        (SymbolErrorSource.version (VersionError.parse "1.2"))) ∧
    (load_cdylib (Except.ok libBadVersion) ⟨0, 1, 0⟩).failsWithSymbolError = true :=
  ⟨rfl, rfl⟩

/-- Claim C8 as amended: when the exported ALUMET_VERSION constant is
present and decodable but malformed as a dotted version, the load fails
with a symbol-class error, LoadError::InvalidSymbol, naming
"ALUMET_VERSION" and carrying the version parse error as its source (not
a distinct Version error class, which the LoadError taxonomy lacks). -/
theorem c8_malformed_version_invalid_symbol (lib : SharedLibrary)
    (hostVersion : Version) (nameS versionS alumetS : String) (init_fn : InitFn)
    (start_fn : StartFn) (stop_fn : StopFn) (drop_fn : DropFn) (ev : VersionError)
    (h1 : lib.sym_name = Except.ok (Except.ok nameS))
    (h2 : lib.sym_plugin_version = Except.ok (Except.ok versionS))
    (h3 : lib.sym_alumet_version = Except.ok (Except.ok alumetS))
    (h4 : lib.sym_init = Except.ok init_fn)
    (h5 : lib.sym_start = Except.ok start_fn)
    (h6 : lib.sym_stop = Except.ok stop_fn)
    (h7 : lib.sym_drop = Except.ok drop_fn)
    (hparse : Version.parse alumetS = Except.error ev) :
    load_cdylib (Except.ok lib) hostVersion =
      LoadResult.error (LoadError.invalidSymbol "ALUMET_VERSION"
        (SymbolErrorSource.version ev)) ∧
    (load_cdylib (Except.ok lib) hostVersion).failsWithSymbolError = true := by
  have hres : load_cdylib (Except.ok lib) hostVersion =
      LoadResult.error (LoadError.invalidSymbol "ALUMET_VERSION"
        (SymbolErrorSource.version ev)) := by
    simp [load_cdylib, load_cdylib_syms, resolveSymbol, sym_to_string,
      h1, h2, h3, h4, h5, h6, h7, hparse, LoadError.fromVersionError]
  exact ⟨hres, by rw [hres]; rfl⟩

/-- Witness for the amended claim C8: ALUMET_VERSION = "1.2.x". -/
theorem c8_malformed_version_invalid_symbol_witness :
    load_cdylib (Except.ok libBadVersion2) ⟨0, 1, 0⟩ =
      LoadResult.error (LoadError.invalidSymbol "ALUMET_VERSION"
        (SymbolErrorSource.version (VersionError.parse "1.2.x"))) ∧
    (load_cdylib (Except.ok libBadVersion2) ⟨0, 1, 0⟩).failsWithSymbolError = true :=
  c8_malformed_version_invalid_symbol libBadVersion2 ⟨0, 1, 0⟩ "demo" "0.1.0" "1.2.x"
    demoInitOk demoStartFn demoStopFn demoDropFn (VersionError.parse "1.2.x")
    rfl rfl rfl rfl rfl rfl rfl rfl

/-- Claim C9: the host wrappers around the foreign start and stop entry
points return success unconditionally — the FFI entry points have no
return value, so no failure inside them is ever observed or propagated
as an error result. -/
theorem c9_start_stop_always_ok :
    ∀ (p : DylibPlugin) (alumet : AlumetStart),
      DylibPlugin.start p alumet = Except.ok () ∧
      DylibPlugin.stop p = Except.ok () :=
  fun _ _ => ⟨rfl, rfl⟩

/-- Claim C10: when plugin_subconfig fails with a type-mismatch error
(the section exists but is not a table), the section has nevertheless
been removed from the global document, so a subsequent extraction of the
same name fails as missing rather than as type-mismatch. -/
theorem c10_type_mismatch_still_removes (name : String) (g : Table) (v : TomlValue)
    (h : (g.map Prod.fst).Nodup) (hget : tableGet g name = some v)
    (hv : v.isTable = false) :
    (plugin_subconfig name g).1 =
      Except.error (SubconfigError.typeMismatch name v.type_str) ∧
    (plugin_subconfig name (plugin_subconfig name g).2).1 =
      Except.error (SubconfigError.missing name) := by
  refine ⟨plugin_subconfig_of_get_nontable name g v hget hv, ?_⟩
  rw [plugin_subconfig_snd]
  exact plugin_subconfig_of_get_none name _ (tableGet_tableRemove_self g name h)

/-- Witness for claim C10: a scalar section under "demo". -/
theorem c10_type_mismatch_still_removes_witness :
    (plugin_subconfig "demo" [("demo", TomlValue.integer 100)]).1 =
      Except.error (SubconfigError.typeMismatch "demo" "integer") ∧
    (plugin_subconfig "demo"
        (plugin_subconfig "demo" [("demo", TomlValue.integer 100)]).2).1 =
      Except.error (SubconfigError.missing "demo") :=
  c10_type_mismatch_still_removes "demo" [("demo", TomlValue.integer 100)]
    (TomlValue.integer 100) (by simp) rfl rfl

end Alumet
